import Mathlib

/-!
Verification of the Lexinel AML pipeline core against its specification.

The development shallowly embeds:
* `backend/services/sentinel_service.py` — `SentinelScanner.evaluate_rule`
  (a deterministic matcher of transaction records against textual rule
  expressions) and the per-transaction body of `SentinelScanner.scan_stream`;
* `backend/agent/nodes.py` — the eight LangGraph nodes, in particular the
  pure `violation_checker_node` rule engine;
* `backend/agent/graph.py` — the three routers and the compiled graph driven
  by `run_agent`, with external collaborators (policy engine, vector store,
  Gemini, webhook) abstracted as an `Oracle` of outcomes.

Python values stored in a transaction dict are modelled by `Val`; Python
floats by `ℚ` (every numeric literal occurring in the code is exactly
representable, and all comparisons performed are order comparisons, so the
rational model is faithful); a raised exception by `Option.none` /
`Except.error`.
-/

namespace Lexinel

/-- A Python value that can appear in a transaction record. -/
inductive Val where
  | num (q : ℚ)
  | str (s : String)
  | boolean (b : Bool)
  | pynone
  deriving DecidableEq, Repr

/-- A transaction record: a Python dict from string keys to values,
modelled as an association list (first binding wins, as `dict` lookup). -/
abbrev Tx := List (String × Val)

/-! ### String helpers

Python's `str.lower` / `str.upper` / `str.split()` / substring `in` are
modelled on the character list of the string, so that every definition
reduces inside the kernel. -/

/-- Python `str.lower()` (character-wise, sufficient for the ASCII rule
expressions the evaluator handles). -/
def lowerStr (s : String) : String := String.mk (s.data.map Char.toLower)

/-- Python `str.upper()`. -/
def upperStr (s : String) : String := String.mk (s.data.map Char.toUpper)

/-- Python `s[:n]` slicing on strings. -/
def takeStr (n : ℕ) (s : String) : String := String.mk (s.data.take n)

/-- Does `pat` occur at the head of `l`? -/
def leadsWith : List Char → List Char → Bool
  | [], _ => true
  | _ :: _, [] => false
  | a :: as, b :: bs => a == b && leadsWith as bs

/-- Does `pat` occur as a contiguous sublist of `l`?  Models Python's
substring test `pat in s`. -/
def occursL (pat : List Char) : List Char → Bool
  | [] => pat.isEmpty
  | c :: cs => leadsWith pat (c :: cs) || occursL pat cs

/-- Substring test on strings: Python `pat in s`. -/
def occurs (pat s : String) : Bool := occursL pat.data s.data

/-- Helper for `pySplitWs`: split a character list on whitespace runs,
accumulating the current (reversed) word. -/
def wordsAux : List Char → List Char → List String
  | [], [] => []
  | [], acc => [String.mk acc.reverse]
  | c :: cs, acc =>
    if c.isWhitespace then
      match acc with
      | [] => wordsAux cs []
      | _ :: _ => String.mk acc.reverse :: wordsAux cs []
    else wordsAux cs (c :: acc)

/-- Python `s.split()` — split on whitespace runs, dropping empty pieces. -/
def pySplitWs (s : String) : List String := wordsAux s.data []

/-- Numeric value of a (non-empty) digit run. -/
def digitsVal (ds : List Char) : ℕ :=
  ds.foldl (fun n c => 10 * n + (c.toNat - 48)) 0

/-- Searches `l` for the literal `anchor` followed by optional whitespace and
then at least one decimal digit, returning the value of the maximal digit
run at the leftmost position where the whole pattern matches.  Models
Python's `re.search(anchor + r"\s*(\d+)", l)` for a literal `anchor`
(backtracking over `\s*` can never produce a digit, so requiring a digit
right after the maximal whitespace run is equivalent). -/
def anchorNum (anchor : List Char) : List Char → Option ℕ
  | [] => none
  | c :: cs =>
    if leadsWith anchor (c :: cs) then
      let rest := ((c :: cs).drop anchor.length).dropWhile Char.isWhitespace
      let ds := rest.takeWhile Char.isDigit
      if ds.isEmpty then anchorNum anchor cs else some (digitsVal ds)
    else anchorNum anchor cs

/-- A regex word character, `\w` (ASCII model). -/
def isWordChar (c : Char) : Bool := c.isAlphanum || c == '_'

/-- Searches `l` for the literal `anchor` followed by optional whitespace and
then at least one word character, returning the maximal `\w+` run at the
leftmost full match.  Models `re.search(anchor + r"\s*(\w+)", l)`. -/
def anchorWord (anchor : List Char) : List Char → Option (List Char)
  | [] => none
  | c :: cs =>
    if leadsWith anchor (c :: cs) then
      let rest := ((c :: cs).drop anchor.length).dropWhile Char.isWhitespace
      let ds := rest.takeWhile isWordChar
      if ds.isEmpty then anchorWord anchor cs else some ds
    else anchorWord anchor cs

/-! ### Python value coercions -/

/-- Python `float(str)` on the decimal forms the code can meet:
optional surrounding whitespace, optional sign, digits with an optional
fractional part (`"10"`, `"99.5"`, `".5"`, `"7."`).  Other strings — and in
particular non-numeric ones — raise, modelled by `none`. -/
def strToRat (s : String) : Option ℚ :=
  let l := (s.data.dropWhile Char.isWhitespace).reverse.dropWhile Char.isWhitespace |>.reverse
  let (neg, l) : Bool × List Char :=
    match l with
    | '-' :: rest => (true, rest)
    | '+' :: rest => (false, rest)
    | _ => (false, l)
  let intPart := l.takeWhile Char.isDigit
  let rest := l.dropWhile Char.isDigit
  let mk : ℕ → ℕ → ℚ := fun n d => mkRat (if neg then -(n : ℤ) else (n : ℤ)) d
  match rest with
  | [] => if intPart.isEmpty then none else some (mk (digitsVal intPart) 1)
  | '.' :: frac =>
    if frac.all Char.isDigit && !(intPart.isEmpty && frac.isEmpty) then
      some (mk (digitsVal intPart * 10 ^ frac.length + digitsVal frac) (10 ^ frac.length))
    else none
  | _ => none

/-- Python `float(v)`: numbers convert, booleans convert to 0/1, numeric
strings parse, everything else (e.g. `None`) raises — modelled by `none`. -/
def pyFloat : Val → Option ℚ
  | Val.num q => some q
  | Val.boolean b => some (if b then 1 else 0)
  | Val.str s => strToRat s
  | Val.pynone => none

/-- Python truthiness of a stored value. -/
def truthy : Val → Bool
  | Val.boolean b => b
  | Val.num q => decide (q ≠ 0)
  | Val.str s => !(s == "")
  | Val.pynone => false

/-- Reading `transaction[k]` for use as an operand of a numeric comparison:
a missing key raises `KeyError`, a non-numeric value raises `TypeError` when
compared with a float; both are modelled by `Except.error ()`.  Python
treats `bool` as numeric. -/
def txNum (tx : Tx) (k : String) : Except Unit ℚ :=
  match tx.lookup k with
  | none => .error ()
  | some (Val.num q) => .ok q
  | some (Val.boolean b) => .ok (if b then 1 else 0)
  | some _ => .error ()

/-! ### `SentinelScanner.evaluate_rule`
(`backend/services/sentinel_service.py`, lines 20–57)

The body of the Python `try:` block is `evalInner`; each statement group of
the body is one clause function returning `Except Unit Bool`, where
`.error ()` models a raised exception, `.ok false` models `return False` and
`.ok true` models falling through to the next clause.  The wrapping
`except Exception: return False` is the `.error` case of `evaluate_rule`. -/

/-- Sequencing of clauses: an exception or an early `return False`
short-circuits, otherwise evaluation continues. -/
def andThen (x : Except Unit Bool) (k : Unit → Except Unit Bool) : Except Unit Bool :=
  match x with
  | .error e => .error e
  | .ok false => .ok false
  | .ok true => k ()

/-- Clause 1a: `if "amount >" in logic: ... if match and transaction['amount'] <= float(...): return False`. -/
def amtGtClause (tx : Tx) (l : List Char) : Except Unit Bool :=
  if occursL "amount >".data l then
    match anchorNum "amount >".data l with
    | some n =>
      match txNum tx "amount" with
      | .error e => .error e
      | .ok a => if a ≤ (n : ℚ) then .ok false else .ok true
    | none => .ok true
  else .ok true

/-- Clause 1b: `if "amount <" in logic: ... if match and transaction['amount'] >= float(...): return False`. -/
def amtLtClause (tx : Tx) (l : List Char) : Except Unit Bool :=
  if occursL "amount <".data l then
    match anchorNum "amount <".data l with
    | some n =>
      match txNum tx "amount" with
      | .error e => .error e
      | .ok a => if a ≥ (n : ℚ) then .ok false else .ok true
    | none => .ok true
  else .ok true

/-- The fixed vocabulary of recognized two-letter country codes. -/
def vocab : List String := ["US", "CN", "RU", "UK", "KY"]

/-- Comparison `word.upper() != transaction['country']` — Python `!=`
between values of different types is `True` without raising. -/
def strNeVal (a : String) (v : Val) : Bool :=
  match v with
  | Val.str b => !(a == b)
  | _ => true

/-- The `for word in logic.split():` loop of the jurisdictional check.
Note the loop reads `transaction['country']` for *every* two-letter word —
this is where a missing `country` key raises `KeyError`. -/
def countryScan (tx : Tx) : List String → Except Unit Bool
  | [] => .ok true
  | w :: ws =>
    if w.length = 2 then
      match tx.lookup "country" with
      | none => .error ()
      | some c =>
        if strNeVal (upperStr w) c then
          if upperStr w ∈ vocab then .ok false else countryScan tx ws
        else countryScan tx ws
    else countryScan tx ws

/-- Clause 2: jurisdictional checks. -/
def countryClause (tx : Tx) (l : List Char) : Except Unit Bool :=
  if occursL "country =".data l || occursL "country is".data l then
    countryScan tx (wordsAux l [])
  else .ok true

/-- `transaction.get('is_cross_border', False)` as a truth value. -/
def crossBorderOf (tx : Tx) : Bool :=
  truthy ((tx.lookup "is_cross_border").getD (Val.boolean false))

/-- Clause 3: cross-border flag.  `.get` with a default never raises. -/
def crossClause (tx : Tx) (l : List Char) : Except Unit Bool :=
  if occursL "cross-border".data l || occursL "cross_border".data l then
    if occursL "true".data l && !crossBorderOf tx then .ok false
    else if occursL "false".data l && crossBorderOf tx then .ok false
    else .ok true
  else .ok true

/-- Clause 4: transaction type.  `transaction['type']` raises `KeyError`
when missing and `.lower()` raises `AttributeError` on a non-string. -/
def typeClause (tx : Tx) (l : List Char) : Except Unit Bool :=
  if occursL "type =".data l then
    match anchorWord "type =".data l with
    | none => .ok true
    | some w =>
      match tx.lookup "type" with
      | none => .error ()
      | some (Val.str s) =>
        if lowerStr s == String.mk (w.map Char.toLower) then .ok true else .ok false
      | some _ => .error ()
  else .ok true

/-- The body of the `try:` block of `evaluate_rule`, on the lowered logic. -/
def evalInner (tx : Tx) (l : List Char) : Except Unit Bool :=
  andThen (amtGtClause tx l) fun _ =>
  andThen (amtLtClause tx l) fun _ =>
  andThen (countryClause tx l) fun _ =>
  andThen (crossClause tx l) fun _ =>
  andThen (typeClause tx l) fun _ => .ok true

/-- `SentinelScanner.evaluate_rule(transaction, rule_logic)`: lowers the
expression, runs the clause chain, and converts any raised exception into
`False` (the `except Exception` arm). -/
def evaluate_rule (tx : Tx) (rule_logic : String) : Bool :=
  match evalInner tx (lowerStr rule_logic).data with
  | .ok b => b
  | .error _ => false

/-! ### `violation_checker_node` — the deterministic AML rule engine
(`backend/agent/nodes.py`, lines 143–192)

The node body has no `try/except`: the only fallible step is
`float(tx.get("TRAN_AMT", tx.get("amount", 0)))`, whose failure aborts the
node (and the whole request) — modelled by `Option.none`.

Fractional constants are written with `mkRat` so that every definition
evaluates inside the kernel (`Rat.ofScientific` is irreducible); the
lemmas `threeQuarters_eq` and `half_eq` below record that they denote the
source literals `0.75` and `0.5`. -/

/-- A violation record appended by `violation_checker_node`.  The Python
dicts carry an `amount` key only for AML-R01 and a `risk_score` key only
for AML-R03; the optional fields model that. -/
structure Violation where
  rule_id : String
  rule_name : String
  severity : String
  action : String
  framework : String
  amount : Option ℚ := none
  risk_score : Option ℚ := none
  deriving DecidableEq, Repr

/-- `float(tx.get("TRAN_AMT", tx.get("amount", 0)))` — the effective
transaction amount; `none` when the `float` conversion raises. -/
def amountOf (tx : Tx) : Option ℚ :=
  pyFloat ((tx.lookup "TRAN_AMT").getD ((tx.lookup "amount").getD (Val.num 0)))

/-- The violation dict appended by rule AML-R01 (CTR Threshold — BSA §1010.310). -/
def r01Violation (amount : ℚ) : Violation :=
  { rule_id := "AML-R01", rule_name := "CTR Threshold Breach", severity := "HIGH",
    action := "FLAG_FOR_CTR", framework := "BSA §1010.310", amount := some amount }

/-- The violation dict appended by rule AML-R02 (Structuring / Smurfing). -/
def r02Violation : Violation :=
  { rule_id := "AML-R02", rule_name := "Structuring Pattern Detected",
    severity := "CRITICAL", action := "AUTO_SAR", framework := "BSA §1010.314" }

/-- The violation dict appended by rule AML-R03 (Semantic High-Risk
Escalation); its severity is the upstream risk label. -/
def r03Violation (risk_score : ℚ) (risk_label : String) : Violation :=
  { rule_id := "AML-R03", rule_name := "Semantic Risk Threshold Breach",
    severity := risk_label, action := "REVIEW_QUEUE",
    framework := "FATF Recommendation 20", risk_score := some risk_score }

/-- The three fixed AML rules of `violation_checker_node`, applied in
source order once the amount conversion has succeeded. -/
def amlRules (amount : ℚ) (message : String) (risk_score : ℚ)
    (risk_label : String) : List Violation :=
  -- AML-R01: CTR Threshold — BSA §1010.310
  let v1 : List Violation := if amount ≥ 10000 then [r01Violation amount] else []
  -- AML-R02: Structuring / Smurfing (heuristic from message)
  let ml := lowerStr message
  let v2 : List Violation :=
    if occurs "structur" ml || occurs "smurf" ml || occurs "split" ml then
      [r02Violation]
    else []
  let vs := v1 ++ v2
  -- AML-R03: Semantic High-Risk Escalation, only `if ... and not violations`
  if risk_score ≥ mkRat 3 4 ∧ vs = [] then vs ++ [r03Violation risk_score risk_label]
  else vs

/-- The pure rule engine of `violation_checker_node`: given the state's
transaction (`state.get("transaction") or {}`), message, risk score and
risk label, it produces the list of violations, or `none` when the
amount conversion raises. -/
def violation_checker (otx : Option Tx) (message : String) (risk_score : ℚ)
    (risk_label : String) : Option (List Violation) :=
  let tx := otx.getD []
  match amountOf tx with
  | none => none
  | some amount => some (amlRules amount message risk_score risk_label)

/-- The threshold `0.75` of the semantic escalation rule. -/
theorem threeQuarters_eq : mkRat 3 4 = (0.75 : ℚ) := by norm_num

/-! ### Pipeline state, routers and orchestration
(`backend/agent/state.py`, `backend/agent/graph.py`)

`LexinelState` mirrors the `TypedDict`; the two `Annotated[..., operator.add]`
fields (`violations`, `step_log`) are merged by list concatenation, all other
fields by overwrite.  Each node's audit-log entry is modelled without its
timestamp (the claims only concern count and order of entries).

External collaborators (policy engine, vector store, Gemini completions,
SIEM webhook) are abstracted by an `Oracle` recording, per call site, either
the successful outcome or a raised/failed call (`Except.error`), exactly the
two cases each node's `try/except` distinguishes. -/

structure LexinelState where
  message : String
  agent_id : String
  transaction : Option Tx
  is_blocked : Bool
  block_reason : String
  policy_context : List String
  risk_score : ℚ
  risk_reasons : List String
  risk_label : String
  violations : List Violation
  violation_found : Bool
  sar_narrative : String
  sar_filing_id : String
  siem_notified : Bool
  answer : String
  citations : List String
  step_log : List String
  deriving Repr

/-- Outcome of `policy_engine.evaluate_prompt(message, agent_id)`. -/
structure SafetyOutcome where
  blocked : Bool
  processed : String
  reason : String
  deriving Repr

/-- Parsed outcome of the Gemini risk-assessment completion (a parse
failure of the returned JSON is a raised exception, i.e. the `error` side
of the oracle field). -/
structure RiskOutcome where
  score : ℚ
  label : String
  reasons : List String
  deriving Repr

/-- One request's external-world outcomes, one field per call site. -/
structure Oracle where
  safety : Except String SafetyOutcome
  rag : Except String (List (String × String))
  risk : Except String RiskOutcome
  sar : Except String String
  siem : Except String ℕ
  respond : Except String String

/-- The initial state built by `run_agent` (`graph.py`, lines 130–148). -/
def initState (message agent_id : String) (transaction : Option Tx) : LexinelState :=
  { message := message, agent_id := agent_id, transaction := transaction,
    is_blocked := false, block_reason := "",
    policy_context := [], risk_score := 0, risk_reasons := [], risk_label := "LOW",
    violations := [], violation_found := false,
    sar_narrative := "", sar_filing_id := "", siem_notified := false,
    answer := "", citations := [],
    step_log := ["[START] agent_id=" ++ agent_id ++ " | input='" ++ takeStr 60 message ++ "'"] }

/-- NODE 1 — `safety_guard_node`.  On an engine error the node falls back to
`is_blocked=false` and does not touch `message`. -/
def safetyGuardN (o : Oracle) (s : LexinelState) : LexinelState :=
  match o.safety with
  | .ok r =>
    { s with is_blocked := r.blocked, block_reason := r.reason, message := r.processed,
             step_log := s.step_log ++
               ["SAFETY_GUARD: Evaluating input for agent_id=" ++ s.agent_id ++
                " → blocked=" ++ toString r.blocked] }
  | .error e =>
    { s with is_blocked := false, block_reason := "",
             step_log := s.step_log ++ ["SAFETY_GUARD_ERROR: " ++ e] }

/-- NODE 2 — `policy_rag_node`.  The Python `list({...})` builds citations
from a set, whose iteration order is unspecified; `eraseDups` is one
deterministic refinement of it (no claim depends on the order). -/
def policyRagN (o : Oracle) (s : LexinelState) : LexinelState :=
  match o.rag with
  | .ok chunks =>
    { s with policy_context := chunks.map (·.1),
             citations := (chunks.map (·.2)).eraseDups,
             step_log := s.step_log ++
               ["POLICY_RAG: Fetching relevant policy context → " ++
                toString chunks.length ++ " chunks retrieved"] }
  | .error e =>
    { s with policy_context := [], citations := ["Lexinel Rulebook"],
             step_log := s.step_log ++ ["POLICY_RAG_ERROR: " ++ e] }

/-- NODE 3 — `risk_assessor_node`.  Fallback: `risk_score=0.1` (`mkRat 1 10`),
`risk_label="LOW"`. -/
def riskAssessorN (o : Oracle) (s : LexinelState) : LexinelState :=
  match o.risk with
  | .ok r =>
    { s with risk_score := r.score, risk_label := r.label, risk_reasons := r.reasons,
             step_log := s.step_log ++ ["RISK_ASSESSOR: Running Gemini risk analysis → parsed"] }
  | .error e =>
    { s with risk_score := mkRat 1 10, risk_label := "LOW",
             risk_reasons := ["Risk assessment error: " ++ e],
             step_log := s.step_log ++ ["RISK_ASSESSOR_ERROR: " ++ e] }

/-- NODE 4 — `violation_checker_node` as a state transformer: merges the
rule engine's output per the state's merge policies (`violations` appends,
`violation_found` overwrites with `len(violations) > 0`), or aborts the
request when the rule engine raises. -/
def violationCheckerN (s : LexinelState) : Option LexinelState :=
  match violation_checker s.transaction s.message s.risk_score s.risk_label with
  | none => none
  | some vs =>
    some { s with violations := s.violations ++ vs,
                  violation_found := decide (vs.length > 0),
                  step_log := s.step_log ++
                    ["VIOLATION_CHECKER: Running deterministic rule engine → " ++
                     toString vs.length ++ " violation(s) found"] }

/-- NODE 5 — `sar_drafter_node`. -/
def sarDrafterN (o : Oracle) (s : LexinelState) : LexinelState :=
  match o.sar with
  | .ok narrative =>
    { s with sar_narrative := narrative,
             answer := "⚠️ Violation confirmed. SAR drafted automatically.\n\n" ++
               takeStr 200 narrative ++ "...",
             step_log := s.step_log ++ ["SAR_DRAFTER: SAR narrative generated"] }
  | .error e =>
    { s with sar_narrative := "SAR generation failed — manual review required.",
             answer := "Violation detected. SAR generation encountered an error. Please review manually.",
             step_log := s.step_log ++ ["SAR_DRAFTER_ERROR: " ++ e] }

/-- NODE 6 — `siem_notifier_node`: notified iff the webhook call returned
status 200; a dispatch error yields `notified=false` without failing. -/
def siemNotifierN (o : Oracle) (s : LexinelState) : LexinelState :=
  let notified := match o.siem with
    | .ok status => decide (status = 200)
    | .error _ => false
  { s with siem_notified := notified,
           step_log := s.step_log ++
             ["SIEM_NOTIFIER: Dispatching violation event → notified=" ++ toString notified] }

/-- NODE 7 — `compliance_responder_node`. -/
def complianceResponderN (o : Oracle) (s : LexinelState) : LexinelState :=
  match o.respond with
  | .ok ans =>
    { s with answer := ans,
             step_log := s.step_log ++ ["COMPLIANCE_RESPONDER: answer generated"] }
  | .error e =>
    { s with answer := "Unable to generate a compliance response. Please consult the policy documentation.",
             step_log := s.step_log ++ ["COMPLIANCE_RESPONDER_ERROR: " ++ e] }

/-- NODE 8 — `blocked_responder_node`. -/
def blockedResponderN (s : LexinelState) : LexinelState :=
  { s with answer := "🚫 Compliance Alert: " ++ s.block_reason,
           citations := ["PolicyGuard Governance Engine"],
           step_log := s.step_log ++
             ["BLOCKED: Input blocked by PolicyGuard — " ++ s.block_reason] }

/-- Router after `safety_guard` (`graph.py`, line 34). -/
def route_after_safety (s : LexinelState) : String :=
  if s.is_blocked then "blocked_responder" else "policy_rag"

/-- Router after `risk_assessor` (`graph.py`, line 39): threshold `0.5`
(`mkRat 1 2`). -/
def route_after_risk (s : LexinelState) : String :=
  if s.risk_score ≥ mkRat 1 2 then "violation_checker" else "compliance_responder"

/-- The threshold `0.5` of the risk router. -/
theorem half_eq : mkRat 1 2 = (0.5 : ℚ) := by norm_num

/-- Router after `violation_checker` (`graph.py`, line 44). -/
def route_after_violation (s : LexinelState) : String :=
  if s.violation_found then "sar_drafter" else "compliance_responder"

/-- `run_agent`: drives the compiled graph — the fixed edges of
`build_lexinel_graph` plus the three routers — from the initial state to a
terminal node.  Returns the final state together with the list of executed
node names in execution order, or `none` when a node raises (only
`violation_checker` can). -/
def runAgent (o : Oracle) (message agent_id : String) (transaction : Option Tx) :
    Option (LexinelState × List String) :=
  let s0 := initState message agent_id transaction
  let s1 := safetyGuardN o s0
  if route_after_safety s1 = "blocked_responder" then
    some (blockedResponderN s1, ["safety_guard", "blocked_responder"])
  else
    let s2 := policyRagN o s1
    let s3 := riskAssessorN o s2
    if route_after_risk s3 = "violation_checker" then
      match violationCheckerN s3 with
      | none => none
      | some s4 =>
        if route_after_violation s4 = "sar_drafter" then
          some (siemNotifierN o (sarDrafterN o s4),
                ["safety_guard", "policy_rag", "risk_assessor", "violation_checker",
                 "sar_drafter", "siem_notifier"])
        else
          some (complianceResponderN o s4,
                ["safety_guard", "policy_rag", "risk_assessor", "violation_checker",
                 "compliance_responder"])
    else
      some (complianceResponderN o s3,
            ["safety_guard", "policy_rag", "risk_assessor", "compliance_responder"])

/-- `state["is_blocked"]` as merged after the safety guard, as a function of
the oracle alone. -/
def blockedOf (o : Oracle) : Bool :=
  match o.safety with
  | .ok r => r.blocked
  | .error _ => false

/-- `state["risk_score"]` as merged after the risk assessor, as a function
of the oracle alone (`0.1` fallback on error). -/
def riskScoreOf (o : Oracle) : ℚ :=
  match o.risk with
  | .ok r => r.score
  | .error _ => mkRat 1 10

/-! ### `SentinelScanner.scan_stream`
(`backend/services/sentinel_service.py`, lines 59–101)

The per-transaction body of the stream: run every rule through
`evaluate_rule`, collect detections (each `+30` risk), clamp the score at
100.  `txn['amount'] > 50000` (severity) and the field reads for the result
record can raise — modelled by `none` (the generator has no `try`). -/

structure SRule where
  id : String
  name : String
  logic : String
  summary : String
  deriving DecidableEq, Repr

structure SentinelDetection where
  rule_id : String
  rule_label : String
  reason : String
  severity : String
  deriving DecidableEq, Repr

structure SentinelResult where
  transaction_id : Val
  timestamp : Val
  verdict : String
  detections : List SentinelDetection
  risk_score : ℕ
  evidence_summary : String
  deriving DecidableEq, Repr

/-- Python `str(v)` (formatting only; no claim depends on its exact text). -/
def pyStr : Val → String
  | Val.num q => toString q
  | Val.str s => s
  | Val.boolean b => toString b
  | Val.pynone => "None"

/-- The default fallback rules used when no synthesized rule is active. -/
def defaultRules : List SRule :=
  [{ id := "R-DFLT-1", name := "High Value Alert", logic := "amount > 10000",
     summary := "Default threshold check" },
   { id := "R-DFLT-2", name := "Cross Border Risk", logic := "cross_border = true",
     summary := "International risk check" }]

/-- `rules_to_use`: active rules, or the defaults when none are active. -/
def rulesToUse (active : List SRule) : List SRule :=
  if active.isEmpty then defaultRules else active

/-- The `for rule in rules_to_use:` loop: accumulates detections and the
raw risk score; `none` when the severity computation `txn['amount'] > 50000`
raises on a matching rule. -/
def scanDet (txn : Tx) : List SRule → List SentinelDetection → ℕ →
    Option (List SentinelDetection × ℕ)
  | [], ds, rs => some (ds, rs)
  | r :: rest, ds, rs =>
    if evaluate_rule txn r.logic then
      match txNum txn "amount" with
      | .error _ => none
      | .ok a =>
        scanDet txn rest
          (ds ++ [{ rule_id := r.id, rule_label := r.name,
                    reason := "Transaction matches logic: " ++ takeStr 50 r.logic ++ "...",
                    severity := if a > 50000 then "HIGH" else "MEDIUM" }])
          (rs + 30)
    else scanDet txn rest ds rs

/-- One iteration of the `for txn in transactions:` loop of `scan_stream`:
the `SentinelResult` yielded for `txn`, or `none` when a field access
raises. -/
def scanTxn (rules : List SRule) (txn : Tx) : Option SentinelResult :=
  match scanDet txn rules [] 0 with
  | none => none
  | some (ds, rs) =>
    match txn.lookup "id", txn.lookup "timestamp", txn.lookup "from",
          txn.lookup "to", txn.lookup "amount" with
    | some i, some ts, some f, some t, some am =>
      some { transaction_id := i, timestamp := ts,
             verdict := if ds.isEmpty then "COMPLIANT" else "FLAGGED",
             detections := ds, risk_score := min 100 rs,
             evidence_summary := "Processed " ++ pyStr i ++ " - Orig: " ++ pyStr f ++
               ", Dest: " ++ pyStr t ++ ", Amt: $" ++ pyStr am }
    | _, _, _, _, _ => none

/-- The full stream: the sequence of results `scan_stream` yields for the
given active rules and transactions, or `none` when some iteration raises. -/
def scanStreamResults (active : List SRule) : List Tx → Option (List SentinelResult)
  | [] => some []
  | t :: ts =>
    match scanTxn (rulesToUse active) t, scanStreamResults active ts with
    | some r, some rs => some (r :: rs)
    | _, _ => none

/-! ### Per-node bookkeeping lemmas -/

theorem safetyGuardN_violations (o : Oracle) (s : LexinelState) :
    (safetyGuardN o s).violations = s.violations := by
  unfold safetyGuardN; cases o.safety <;> rfl

theorem policyRagN_violations (o : Oracle) (s : LexinelState) :
    (policyRagN o s).violations = s.violations := by
  unfold policyRagN; cases o.rag <;> rfl

theorem riskAssessorN_violations (o : Oracle) (s : LexinelState) :
    (riskAssessorN o s).violations = s.violations := by
  unfold riskAssessorN; cases o.risk <;> rfl

theorem sarDrafterN_violations (o : Oracle) (s : LexinelState) :
    (sarDrafterN o s).violations = s.violations := by
  unfold sarDrafterN; cases o.sar <;> rfl

theorem siemNotifierN_violations (o : Oracle) (s : LexinelState) :
    (siemNotifierN o s).violations = s.violations := rfl

theorem complianceResponderN_violations (o : Oracle) (s : LexinelState) :
    (complianceResponderN o s).violations = s.violations := by
  unfold complianceResponderN; cases o.respond <;> rfl

theorem sarDrafterN_violation_found (o : Oracle) (s : LexinelState) :
    (sarDrafterN o s).violation_found = s.violation_found := by
  unfold sarDrafterN; cases o.sar <;> rfl

theorem siemNotifierN_violation_found (o : Oracle) (s : LexinelState) :
    (siemNotifierN o s).violation_found = s.violation_found := rfl

theorem complianceResponderN_violation_found (o : Oracle) (s : LexinelState) :
    (complianceResponderN o s).violation_found = s.violation_found := by
  unfold complianceResponderN; cases o.respond <;> rfl

theorem safetyGuardN_is_blocked (o : Oracle) (s : LexinelState) :
    (safetyGuardN o s).is_blocked = blockedOf o := by
  unfold safetyGuardN blockedOf; cases o.safety <;> rfl

theorem riskAssessorN_risk_score (o : Oracle) (s : LexinelState) :
    (riskAssessorN o s).risk_score = riskScoreOf o := by
  unfold riskAssessorN riskScoreOf; cases o.risk <;> rfl

theorem safetyGuardN_log (o : Oracle) (s : LexinelState) :
    ∃ e, (safetyGuardN o s).step_log = s.step_log ++ [e] := by
  unfold safetyGuardN; cases o.safety <;> exact ⟨_, rfl⟩

theorem policyRagN_log (o : Oracle) (s : LexinelState) :
    ∃ e, (policyRagN o s).step_log = s.step_log ++ [e] := by
  unfold policyRagN; cases o.rag <;> exact ⟨_, rfl⟩

theorem riskAssessorN_log (o : Oracle) (s : LexinelState) :
    ∃ e, (riskAssessorN o s).step_log = s.step_log ++ [e] := by
  unfold riskAssessorN; cases o.risk <;> exact ⟨_, rfl⟩

theorem sarDrafterN_log (o : Oracle) (s : LexinelState) :
    ∃ e, (sarDrafterN o s).step_log = s.step_log ++ [e] := by
  unfold sarDrafterN; cases o.sar <;> exact ⟨_, rfl⟩

theorem siemNotifierN_log (o : Oracle) (s : LexinelState) :
    ∃ e, (siemNotifierN o s).step_log = s.step_log ++ [e] := ⟨_, rfl⟩

theorem complianceResponderN_log (o : Oracle) (s : LexinelState) :
    ∃ e, (complianceResponderN o s).step_log = s.step_log ++ [e] := by
  unfold complianceResponderN; cases o.respond <;> exact ⟨_, rfl⟩

theorem blockedResponderN_log (s : LexinelState) :
    ∃ e, (blockedResponderN s).step_log = s.step_log ++ [e] := ⟨_, rfl⟩

/-- What a successful `violation_checker` node run does to the state. -/
theorem violationCheckerN_spec (s s' : LexinelState) (h : violationCheckerN s = some s') :
    ∃ vs, violation_checker s.transaction s.message s.risk_score s.risk_label = some vs ∧
      s'.violations = s.violations ++ vs ∧
      s'.violation_found = decide (vs.length > 0) ∧
      ∃ e, s'.step_log = s.step_log ++ [e] := by
  unfold violationCheckerN at h
  split at h
  · exact absurd h (by simp)
  · rename_i vs hvs
    simp only [Option.some.injEq] at h
    subst h
    exact ⟨vs, hvs, rfl, rfl, _, rfl⟩

/-- Violations are still empty when `risk_assessor` completes. -/
theorem pre3_violations (o : Oracle) (m a : String) (tx : Option Tx) :
    (riskAssessorN o (policyRagN o (safetyGuardN o (initState m a tx)))).violations = [] := by
  rw [riskAssessorN_violations, policyRagN_violations, safetyGuardN_violations]; rfl

/-! ### C1 -/

/-- C1: for every request in which the CheckViolations stage
(`violation_checker`) has run, the resulting state satisfies
`violation_found == (len(violations) > 0)`: the boolean is true if and only
if the accumulated violations list is non-empty. -/
theorem checkViolations_invariant (o : Oracle) (m a : String) (tx : Option Tx)
    (st : LexinelState) (path : List String)
    (hrun : runAgent o m a tx = some (st, path))
    (hmem : "violation_checker" ∈ path) :
    st.violation_found = true ↔ st.violations ≠ [] := by
  simp only [runAgent] at hrun
  split at hrun
  · simp only [Option.some.injEq, Prod.mk.injEq] at hrun
    obtain ⟨rfl, rfl⟩ := hrun
    exact absurd hmem (by decide)
  · split at hrun
    · split at hrun
      · exact absurd hrun (by simp)
      · rename_i s4 h4
        obtain ⟨vs, hvs, h4v, h4f, -⟩ := violationCheckerN_spec _ _ h4
        rw [pre3_violations, List.nil_append] at h4v
        split at hrun <;>
        · simp only [Option.some.injEq, Prod.mk.injEq] at hrun
          obtain ⟨rfl, rfl⟩ := hrun
          first
          | rw [siemNotifierN_violation_found, sarDrafterN_violation_found,
                siemNotifierN_violations, sarDrafterN_violations, h4v, h4f]
          | rw [complianceResponderN_violation_found, complianceResponderN_violations, h4v, h4f]
          simp [List.length_pos]
    · simp only [Option.some.injEq, Prod.mk.injEq] at hrun
      obtain ⟨rfl, rfl⟩ := hrun
      exact absurd hmem (by decide)

/-- A request whose risk assessment parses to score 1 (≥ 0.75, ≥ 0.5) with
label HIGH, all collaborators succeeding. -/
def oracleHigh : Oracle :=
  { safety := .ok ⟨false, "hello", ""⟩, rag := .ok [], risk := .ok ⟨1, "HIGH", []⟩,
    sar := .ok "Narrative text", siem := .ok 200, respond := .ok "All clear" }

/-- Witness for C1: a concrete run through the CheckViolations stage in
which the invariant is realized. -/
theorem checkViolations_invariant_witness :
    ∃ st path, runAgent oracleHigh "hello" "sentinel-chat" none = some (st, path) ∧
      "violation_checker" ∈ path ∧ (st.violation_found = true ↔ st.violations ≠ []) := by
  refine ⟨_, _, rfl, by decide, ?_⟩
  exact checkViolations_invariant oracleHigh "hello" "sentinel-chat" none _ _ rfl (by decide)

/-! ### C2 -/

/-- C2 counterexample: a transaction record whose `TRAN_AMT` value is
Python's `None` makes `float(None)` raise `TypeError`; `violation_checker_node`
has no `try/except`, so the stage raises to the orchestrator instead of
returning a StageResult (the `none` result). -/
theorem violationChecker_raises :
    violation_checker (some [("TRAN_AMT", Val.pynone)]) "wire transfer" 1 "HIGH" = none := rfl

/-- C2 amended: the CheckViolations stage returns a result (never raises)
provided the transaction's effective amount value — `TRAN_AMT`, else
`amount`, else the default `0` — is convertible by `float`; a
non-convertible value (e.g. `None`) makes the stage raise. -/
theorem violationChecker_total_amended (otx : Option Tx) (msg : String)
    (rs : ℚ) (rl : String) (a : ℚ) (h : amountOf (otx.getD []) = some a) :
    ∃ vs, violation_checker otx msg rs rl = some vs := by
  simp only [violation_checker, h]
  exact ⟨_, rfl⟩

/-- Witness for the amended C2 at a float-convertible amount. -/
theorem violationChecker_total_amended_witness :
    ∃ vs, violation_checker (some [("amount", Val.num 5000)]) "hello" 0 "LOW" = some vs :=
  violationChecker_total_amended _ "hello" 0 "LOW" 5000 rfl

/-! ### C3 -/

/-- C3 counterexample: on an expression whose numeric bound clause has a
malformed (non-integer) threshold, `evaluate_rule` returns `true`, not the
conservative `false`: `re.search` finds no digits, the clause is skipped,
and the expression imposes no constraint. -/
theorem evaluateRule_malformed :
    evaluate_rule [("amount", Val.num 5)] "amount > abc" = true := by decide

/-- C3 amended: a numeric bound clause whose threshold is not a plain
integer literal is silently skipped as if absent — it imposes no
constraint — so an expression containing only such a clause matches every
transaction; only clauses that raise during evaluation default to `false`. -/
theorem evaluateRule_malformed_amended (tx : Tx) :
    evaluate_rule tx "amount > abc" = true := rfl

/-! ### C4 -/

theorem upperStr_length (w : String) : (upperStr w).length = w.length := by
  show (w.data.map Char.toUpper).length = w.data.length
  exact List.length_map _ _

theorem vocab_mem_length {u : String} (h : u ∈ vocab) : u.length = 2 := by
  simp only [vocab, List.mem_cons, List.not_mem_nil, or_false] at h
  rcases h with rfl | rfl | rfl | rfl | rfl <;> rfl

/-- With the `country` key missing, the word loop raises `KeyError` at the
first two-letter word. -/
theorem countryScan_missing (tx : Tx) (hc : tx.lookup "country" = none) :
    ∀ ws : List String, (∃ w ∈ ws, w.length = 2) → countryScan tx ws = .error () := by
  intro ws
  induction ws with
  | nil => rintro ⟨w, hw, -⟩; exact absurd hw (List.not_mem_nil w)
  | cons w ws ih =>
    rintro ⟨u, hu, hlen⟩
    unfold countryScan
    by_cases h2 : w.length = 2
    · rw [if_pos h2, hc]
    · rw [if_neg h2]
      apply ih
      rcases List.mem_cons.mp hu with rfl | hmem
      · exact absurd hlen h2
      · exact ⟨u, hmem, hlen⟩

/-- C4: `evaluate_rule` never propagates an error to the caller — every
internal exception is converted to `false`; in particular, for every
transaction record missing the `country` field and every expression with a
country-code clause (naming a code of the recognized vocabulary), it
returns `false` rather than raising. -/
theorem evaluateRule_fail_closed (tx : Tx) (logic : String)
    (hc : tx.lookup "country" = none)
    (hcl : occurs "country =" (lowerStr logic) = true ∨
           occurs "country is" (lowerStr logic) = true)
    (hw : ∃ w ∈ pySplitWs (lowerStr logic), upperStr w ∈ vocab) :
    evaluate_rule tx logic = false := by
  have hcountry : countryClause tx (lowerStr logic).data = .error () := by
    unfold countryClause
    rw [if_pos]
    · apply countryScan_missing tx hc
      obtain ⟨w, hmem, hvoc⟩ := hw
      exact ⟨w, by simpa [pySplitWs] using hmem,
             by rw [← upperStr_length]; exact vocab_mem_length hvoc⟩
    · rcases hcl with h | h <;> simp only [occurs] at h <;> simp [h]
  unfold evaluate_rule evalInner
  cases hg : amtGtClause tx (lowerStr logic).data with
  | error e => simp [andThen, hg]
  | ok b =>
    cases b with
    | false => simp [andThen, hg]
    | true =>
      cases hl : amtLtClause tx (lowerStr logic).data with
      | error e => simp [andThen, hg, hl]
      | ok b2 =>
        cases b2 with
        | false => simp [andThen, hg, hl]
        | true => simp [andThen, hg, hl, hcountry]

/-- Witness for C4: missing `country`, expression `"country = US"`. -/
theorem evaluateRule_fail_closed_witness :
    evaluate_rule [] "country = US" = false :=
  evaluateRule_fail_closed [] "country = US" rfl (Or.inl (by decide))
    ⟨"us", by decide, by decide⟩

/-! ### C5 -/

theorem amlRules_r01 (msg : String) (rs : ℚ) (rl : String) (amount : ℚ)
    (h : amount ≥ 10000) :
    ∃ v ∈ amlRules amount msg rs rl, v.rule_id = "AML-R01" ∧ v.severity = "HIGH" := by
  simp only [amlRules]
  rw [if_pos h]
  rw [if_neg (by rintro ⟨-, habs⟩; simp at habs)]
  exact ⟨_, List.mem_append_left _ (List.mem_singleton.mpr rfl), rfl, rfl⟩

theorem amlRules_r01_not (msg : String) (rs : ℚ) (rl : String) (amount : ℚ)
    (h : ¬ amount ≥ 10000) :
    ∀ v ∈ amlRules amount msg rs rl, v.rule_id ≠ "AML-R01" := by
  intro v hv
  simp only [amlRules] at hv
  rw [if_neg h, List.nil_append] at hv
  by_cases hstem : (occurs "structur" (lowerStr msg) || occurs "smurf" (lowerStr msg) ||
      occurs "split" (lowerStr msg)) = true
  · rw [if_pos hstem] at hv
    rw [if_neg (by rintro ⟨-, habs⟩; simp at habs)] at hv
    rw [List.mem_singleton] at hv
    subst hv
    exact (by decide : r02Violation.rule_id ≠ "AML-R01")
  · rw [if_neg hstem] at hv
    by_cases hrs : rs ≥ mkRat 3 4
    · rw [if_pos ⟨hrs, rfl⟩, List.nil_append, List.mem_singleton] at hv
      subst hv
      exact (by decide : ("AML-R03" : String) ≠ "AML-R01")
    · rw [if_neg (fun hh => hrs hh.1)] at hv
      exact absurd hv (List.not_mem_nil v)

/-- C5: a transaction with numeric amount exactly 10000 always yields a
HIGH-severity AML-R01 (CTR) violation, regardless of the message and risk
score; with amount 9999.99 that rule never fires (though others may). -/
theorem ctr_threshold_rule :
    (∀ (otx : Option Tx) (msg : String) (rs : ℚ) (rl : String),
        amountOf (otx.getD []) = some 10000 →
        ∃ vs, violation_checker otx msg rs rl = some vs ∧
          ∃ v ∈ vs, v.rule_id = "AML-R01" ∧ v.severity = "HIGH") ∧
    (∀ (otx : Option Tx) (msg : String) (rs : ℚ) (rl : String),
        amountOf (otx.getD []) = some (9999.99 : ℚ) →
        ∀ vs, violation_checker otx msg rs rl = some vs →
          ∀ v ∈ vs, v.rule_id ≠ "AML-R01") := by
  constructor
  · intro otx msg rs rl h
    simp only [violation_checker, h]
    exact ⟨_, rfl, amlRules_r01 msg rs rl 10000 (le_refl _)⟩
  · intro otx msg rs rl h vs hvs
    simp only [violation_checker, h, Option.some.injEq] at hvs
    subst hvs
    exact amlRules_r01_not msg rs rl _ (by norm_num)

/-- Witness for C5: both amounts realized on concrete transactions. -/
theorem ctr_threshold_rule_witness :
    (∃ vs, violation_checker (some [("TRAN_AMT", Val.num 10000)]) "msg" 0 "LOW" = some vs ∧
        ∃ v ∈ vs, v.rule_id = "AML-R01" ∧ v.severity = "HIGH") ∧
    (∀ vs, violation_checker (some [("amount", Val.num 9999.99)]) "msg" 0 "LOW" = some vs →
        ∀ v ∈ vs, v.rule_id ≠ "AML-R01") :=
  ⟨ctr_threshold_rule.1 _ "msg" 0 "LOW" rfl,
   ctr_threshold_rule.2 _ "msg" 0 "LOW" rfl⟩

/-! ### C6 -/

theorem amlRules_r02 (msg : String) (rs : ℚ) (rl : String) (amount : ℚ)
    (hstem : (occurs "structur" (lowerStr msg) || occurs "smurf" (lowerStr msg) ||
      occurs "split" (lowerStr msg)) = true) :
    ∃ v ∈ amlRules amount msg rs rl, v.rule_id = "AML-R02" ∧ v.severity = "CRITICAL" := by
  simp only [amlRules]
  rw [if_pos hstem]
  rw [if_neg (by rintro ⟨-, habs⟩; simp at habs)]
  exact ⟨_, List.mem_append_right _ (List.mem_singleton.mpr rfl), rfl, rfl⟩

/-- C6: a message containing a keyword of the fixed stem set
(`structur`, `smurf`, `split` — e.g. "structuring", "smurfing",
"splitting") always yields a CRITICAL-severity AML-R02 structuring-pattern
violation, regardless of the transaction amount and of the risk score. -/
theorem structuring_rule (otx : Option Tx) (msg : String) (rs : ℚ) (rl : String)
    (vs : List Violation)
    (hstem : occurs "structur" (lowerStr msg) = true ∨
             occurs "smurf" (lowerStr msg) = true ∨
             occurs "split" (lowerStr msg) = true)
    (hvs : violation_checker otx msg rs rl = some vs) :
    ∃ v ∈ vs, v.rule_id = "AML-R02" ∧ v.severity = "CRITICAL" := by
  simp only [violation_checker] at hvs
  cases ha : amountOf (otx.getD []) with
  | none => rw [ha] at hvs; exact absurd hvs (by simp)
  | some amount =>
    rw [ha] at hvs
    simp only [Option.some.injEq] at hvs
    subst hvs
    exact amlRules_r02 msg rs rl amount (by rcases hstem with h | h | h <;> simp [h])

/-- Witness for C6: the message "smurfing funds" with no transaction and
zero risk score. -/
theorem structuring_rule_witness :
    ∃ vs, violation_checker none "smurfing funds" 0 "LOW" = some vs ∧
      ∃ v ∈ vs, v.rule_id = "AML-R02" ∧ v.severity = "CRITICAL" :=
  ⟨_, rfl, structuring_rule none "smurfing funds" 0 "LOW" _
    (Or.inr (Or.inl (by decide))) rfl⟩

/-! ### C7 -/

theorem amlRules_r03_iff (msg : String) (rs : ℚ) (rl : String) (amount : ℚ) :
    ((∃ v ∈ amlRules amount msg rs rl, v.rule_id = "AML-R03") ↔
      (rs ≥ (0.75 : ℚ) ∧
        ∀ v ∈ amlRules amount msg rs rl, v.rule_id ≠ "AML-R01" ∧ v.rule_id ≠ "AML-R02")) ∧
    (∀ v ∈ amlRules amount msg rs rl, v.rule_id = "AML-R03" → v.severity = rl) := by
  rw [← threeQuarters_eq]
  simp only [amlRules]
  set V1 : List Violation := if amount ≥ 10000 then [r01Violation amount] else [] with hV1def
  set V2 : List Violation :=
    if (occurs "structur" (lowerStr msg) || occurs "smurf" (lowerStr msg) ||
        occurs "split" (lowerStr msg)) = true then [r02Violation] else [] with hV2def
  have hids : ∀ v ∈ V1 ++ V2, v.rule_id = "AML-R01" ∨ v.rule_id = "AML-R02" := by
    intro v hv
    rcases List.mem_append.mp hv with h | h
    · left
      rw [hV1def] at h
      split at h
      · rw [List.mem_singleton] at h; subst h; rfl
      · exact absurd h (List.not_mem_nil v)
    · right
      rw [hV2def] at h
      split at h
      · rw [List.mem_singleton] at h; subst h; rfl
      · exact absurd h (List.not_mem_nil v)
  by_cases hcond : rs ≥ mkRat 3 4 ∧ V1 ++ V2 = []
  · rw [if_pos hcond]
    obtain ⟨h3, hnil⟩ := hcond
    rw [hnil, List.nil_append]
    refine ⟨⟨fun _ => ⟨h3, ?_⟩, fun _ => ⟨_, List.mem_singleton.mpr rfl, rfl⟩⟩, ?_⟩
    · intro v hv
      rw [List.mem_singleton] at hv; subst hv
      exact ⟨(by decide : ("AML-R03" : String) ≠ "AML-R01"),
             (by decide : ("AML-R03" : String) ≠ "AML-R02")⟩
    · intro v hv _
      rw [List.mem_singleton] at hv; subst hv; rfl
  · rw [if_neg hcond]
    refine ⟨⟨?_, ?_⟩, ?_⟩
    · rintro ⟨v, hv, hid⟩
      rcases hids v hv with h | h <;> rw [hid] at h <;> exact absurd h (by decide)
    · rintro ⟨h3, hall⟩
      exfalso
      by_cases hnil : V1 ++ V2 = []
      · exact hcond ⟨h3, hnil⟩
      · obtain ⟨v, hv⟩ := List.exists_mem_of_ne_nil _ hnil
        rcases hids v hv with h | h
        · exact (hall v hv).1 h
        · exact (hall v hv).2 h
    · intro v hv heq
      rcases hids v hv with h | h <;> rw [heq] at h <;> exact absurd h (by decide)

/-- C7: the semantic escalation rule AML-R03 fires if and only if no prior
rule (AML-R01 amount threshold, AML-R02 structuring keyword) has matched
and the risk score is ≥ 0.75; when it fires, the recorded violation's
severity equals the upstream risk label. -/
theorem semantic_escalation_rule (otx : Option Tx) (msg : String) (rs : ℚ)
    (rl : String) (vs : List Violation)
    (hvs : violation_checker otx msg rs rl = some vs) :
    ((∃ v ∈ vs, v.rule_id = "AML-R03") ↔
      (rs ≥ (0.75 : ℚ) ∧ ∀ v ∈ vs, v.rule_id ≠ "AML-R01" ∧ v.rule_id ≠ "AML-R02")) ∧
    (∀ v ∈ vs, v.rule_id = "AML-R03" → v.severity = rl) := by
  simp only [violation_checker] at hvs
  cases ha : amountOf (otx.getD []) with
  | none => rw [ha] at hvs; exact absurd hvs (by simp)
  | some amount =>
    rw [ha] at hvs
    simp only [Option.some.injEq] at hvs
    subst hvs
    exact amlRules_r03_iff msg rs rl amount

/-- Witness for C7: a concrete run where AML-R03 fires with severity equal
to the upstream label. -/
theorem semantic_escalation_rule_witness :
    ∃ vs, violation_checker none "hello" 1 "HIGH" = some vs ∧
      (((∃ v ∈ vs, v.rule_id = "AML-R03") ↔
        ((1 : ℚ) ≥ (0.75 : ℚ) ∧ ∀ v ∈ vs, v.rule_id ≠ "AML-R01" ∧ v.rule_id ≠ "AML-R02")) ∧
      (∀ v ∈ vs, v.rule_id = "AML-R03" → v.severity = "HIGH")) :=
  ⟨_, rfl, semantic_escalation_rule none "hello" 1 "HIGH" _ rfl⟩

/-! ### C8 -/

/-- C8: whenever the request is not blocked and the risk score merged out
of ScoreRisk is strictly below 0.5, the router selects the clean responder:
the executed path is exactly safety_guard → policy_rag → risk_assessor →
compliance_responder, the CheckViolations stage is never executed, and the
final violations list is empty. -/
theorem low_risk_clean_path (o : Oracle) (m a : String) (tx : Option Tx)
    (hb : blockedOf o = false) (hr : riskScoreOf o < (0.5 : ℚ)) :
    ∃ st, runAgent o m a tx =
        some (st, ["safety_guard", "policy_rag", "risk_assessor", "compliance_responder"]) ∧
      st.violations = [] ∧
      "violation_checker" ∉
        ["safety_guard", "policy_rag", "risk_assessor", "compliance_responder"] := by
  have h1 : (safetyGuardN o (initState m a tx)).is_blocked = false := by
    rw [safetyGuardN_is_blocked]; exact hb
  have h2 : (riskAssessorN o (policyRagN o (safetyGuardN o (initState m a tx)))).risk_score
      = riskScoreOf o := riskAssessorN_risk_score o _
  have h3 : ¬ (riskScoreOf o ≥ mkRat 1 2) := by
    rw [half_eq]; exact not_le.mpr hr
  have hc1 : route_after_safety (safetyGuardN o (initState m a tx)) = "policy_rag" := by
    simp [route_after_safety, h1]
  have hc2 : route_after_risk
      (riskAssessorN o (policyRagN o (safetyGuardN o (initState m a tx))))
      = "compliance_responder" := by
    simp [route_after_risk, h2, h3]
  simp only [runAgent]
  rw [hc1, if_neg (by decide : ¬ (("policy_rag" : String) = "blocked_responder"))]
  rw [hc2, if_neg (by decide : ¬ (("compliance_responder" : String) = "violation_checker"))]
  refine ⟨_, rfl, ?_, by decide⟩
  rw [complianceResponderN_violations, pre3_violations]

/-- A request whose risk assessment parses to score 0 (< 0.5), not blocked,
all collaborators succeeding. -/
def oracleLow : Oracle :=
  { safety := .ok ⟨false, "hi", ""⟩, rag := .ok [], risk := .ok ⟨0, "LOW", []⟩,
    sar := .ok "n", siem := .ok 200, respond := .ok "All good" }

/-- Witness for C8 on a concrete low-risk run. -/
theorem low_risk_clean_path_witness :
    ∃ st, runAgent oracleLow "hi" "sentinel-chat" none =
        some (st, ["safety_guard", "policy_rag", "risk_assessor", "compliance_responder"]) ∧
      st.violations = [] ∧
      "violation_checker" ∉
        ["safety_guard", "policy_rag", "risk_assessor", "compliance_responder"] :=
  low_risk_clean_path oracleLow "hi" "sentinel-chat" none rfl
    (by rw [show riskScoreOf oracleLow = 0 from rfl]; norm_num)

/-! ### C9 -/

/-- C9 counterexample: on a concrete completed low-risk run, 4 stages
execute but the final audit log has 5 entries (the START entry plus one per
stage), so the final log length (5) equals neither the number of executed
stages (4) nor any value of the claimed set {3, 4, 6}. -/
theorem audit_log_length_mismatch :
    (runAgent oracleLow "hi" "sentinel-chat" none).map
        (fun p => (p.1.step_log.length, p.2.length)) = some (5, 4) ∧
      (5 : ℕ) ≠ 4 ∧ (5 : ℕ) ≠ 3 ∧ (5 : ℕ) ≠ 6 :=
  ⟨rfl, by decide, by decide, by decide⟩

/-- C9 amended: within every completed request the audit log grows
append-only — the final log is the initial START entry's log followed by
exactly one entry per executed stage, in execution order — and the number
of executed stages is 2, 4, 5, or 6 depending on the branch (so the final
log length is one more: 3, 5, 6, or 7). -/
theorem audit_log_amended (o : Oracle) (m a : String) (tx : Option Tx)
    (st : LexinelState) (path : List String)
    (hrun : runAgent o m a tx = some (st, path)) :
    ∃ es : List String, st.step_log = (initState m a tx).step_log ++ es ∧
      es.length = path.length ∧
      (path.length = 2 ∨ path.length = 4 ∨ path.length = 5 ∨ path.length = 6) := by
  obtain ⟨e1, h1⟩ := safetyGuardN_log o (initState m a tx)
  simp only [runAgent] at hrun
  split at hrun
  · simp only [Option.some.injEq, Prod.mk.injEq] at hrun
    obtain ⟨rfl, rfl⟩ := hrun
    obtain ⟨e2, h2⟩ := blockedResponderN_log (safetyGuardN o (initState m a tx))
    exact ⟨[e1, e2], by rw [h2, h1]; simp, rfl, Or.inl rfl⟩
  · obtain ⟨e2, h2⟩ := policyRagN_log o (safetyGuardN o (initState m a tx))
    obtain ⟨e3, h3⟩ :=
      riskAssessorN_log o (policyRagN o (safetyGuardN o (initState m a tx)))
    split at hrun
    · split at hrun
      · exact absurd hrun (by simp)
      · rename_i s4 h4
        obtain ⟨vs, -, -, -, e4, h4l⟩ := violationCheckerN_spec _ _ h4
        split at hrun
        · simp only [Option.some.injEq, Prod.mk.injEq] at hrun
          obtain ⟨rfl, rfl⟩ := hrun
          obtain ⟨e5, h5⟩ := sarDrafterN_log o s4
          obtain ⟨e6, h6⟩ := siemNotifierN_log o (sarDrafterN o s4)
          exact ⟨[e1, e2, e3, e4, e5, e6],
            by rw [h6, h5, h4l, h3, h2, h1]; simp, rfl, Or.inr (Or.inr (Or.inr rfl))⟩
        · simp only [Option.some.injEq, Prod.mk.injEq] at hrun
          obtain ⟨rfl, rfl⟩ := hrun
          obtain ⟨e5, h5⟩ := complianceResponderN_log o s4
          exact ⟨[e1, e2, e3, e4, e5],
            by rw [h5, h4l, h3, h2, h1]; simp, rfl, Or.inr (Or.inr (Or.inl rfl))⟩
    · simp only [Option.some.injEq, Prod.mk.injEq] at hrun
      obtain ⟨rfl, rfl⟩ := hrun
      obtain ⟨e4, h4⟩ :=
        complianceResponderN_log o
          (riskAssessorN o (policyRagN o (safetyGuardN o (initState m a tx))))
      exact ⟨[e1, e2, e3, e4], by rw [h4, h3, h2, h1]; simp, rfl, Or.inr (Or.inl rfl)⟩

/-- Witness for the amended C9 on a concrete completed run. -/
theorem audit_log_amended_witness :
    ∃ st path, runAgent oracleLow "hi" "sentinel-chat" none = some (st, path) ∧
      ∃ es : List String, st.step_log = (initState "hi" "sentinel-chat" none).step_log ++ es ∧
        es.length = path.length ∧
        (path.length = 2 ∨ path.length = 4 ∨ path.length = 5 ∨ path.length = 6) := by
  refine ⟨_, _, rfl, ?_⟩
  exact audit_log_amended oracleLow "hi" "sentinel-chat" none _ _ rfl

/-! ### C10 -/

/-- The detection loop keeps `risk_score = 30 × number of detections`. -/
theorem scanDet_inv (txn : Tx) (rules : List SRule) :
    ∀ (ds : List SentinelDetection) (rs : ℕ) (ds' : List SentinelDetection) (rs' : ℕ),
      scanDet txn rules ds rs = some (ds', rs') →
      rs = 30 * ds.length → rs' = 30 * ds'.length := by
  induction rules with
  | nil =>
    intro ds rs ds' rs' h hlen
    simp only [scanDet, Option.some.injEq, Prod.mk.injEq] at h
    obtain ⟨rfl, rfl⟩ := h
    exact hlen
  | cons r rest ih =>
    intro ds rs ds' rs' h hlen
    simp only [scanDet] at h
    split at h
    · split at h
      · exact absurd h (by simp)
      · refine ih _ _ _ _ h ?_
        simp only [List.length_append, List.length_singleton]
        omega
    · exact ih _ _ _ _ h hlen

/-- The invariant for one yielded result. -/
theorem scanTxn_invariant (rules : List SRule) (txn : Tx) (r : SentinelResult)
    (h : scanTxn rules txn = some r) :
    (r.verdict = "FLAGGED" ↔ r.detections ≠ []) ∧
    r.risk_score = min 100 (30 * r.detections.length) := by
  unfold scanTxn at h
  split at h
  · exact absurd h (by simp)
  · rename_i ds rs hds
    split at h
    · simp only [Option.some.injEq] at h
      subst h
      refine ⟨?_, ?_⟩
      · cases ds with
        | nil => simp
        | cons d ds' => simp
      · have hrs : rs = 30 * ds.length := scanDet_inv txn rules [] 0 ds rs hds rfl
        simp only [hrs]
    · exact absurd h (by simp)

/-- C10: every `SentinelResult` yielded by `scan_stream` satisfies: the
verdict is "FLAGGED" iff its detections list is non-empty (otherwise
"COMPLIANT"), and the risk score equals `min(100, 30 × #detections)`. -/
theorem sentinel_result_invariant (active : List SRule) (txns : List Tx)
    (out : List SentinelResult) (h : scanStreamResults active txns = some out) :
    ∀ r ∈ out, (r.verdict = "FLAGGED" ↔ r.detections ≠ []) ∧
      r.risk_score = min 100 (30 * r.detections.length) := by
  induction txns generalizing out with
  | nil =>
    simp only [scanStreamResults, Option.some.injEq] at h
    subst h
    intro r hr
    exact absurd hr (List.not_mem_nil r)
  | cons t ts ih =>
    simp only [scanStreamResults] at h
    split at h
    · rename_i r0 rs0 hr0 hrs0
      simp only [Option.some.injEq] at h
      subst h
      intro r hr
      rcases List.mem_cons.mp hr with rfl | hmem
      · exact scanTxn_invariant _ _ _ hr0
      · exact ih _ hrs0 r hmem
    · exact absurd h (by simp)

/-- A concrete mock transaction in the shape of the IBM AML sample data. -/
def demoTxn : Tx :=
  [("id", Val.str "TX-1001"), ("timestamp", Val.str "2024-01-01T00:00:00Z"),
   ("from", Val.str "ACC-1"), ("to", Val.str "ACC-2"), ("amount", Val.num 20000)]

/-- Witness for C10: scanning one concrete transaction against the default
rules yields a result, and the invariant holds on it. -/
theorem sentinel_result_invariant_witness :
    ∃ out, scanStreamResults [] [demoTxn] = some out ∧
      ∀ r ∈ out, (r.verdict = "FLAGGED" ↔ r.detections ≠ []) ∧
        r.risk_score = min 100 (30 * r.detections.length) :=
  ⟨_, rfl, sentinel_result_invariant [] [demoTxn] _ rfl⟩

end Lexinel
